import Mathlib

/-!
Verification of the ksync locking and one-time-initialization core.

This file gives a shallow embedding of the code in `src/mutex.rs`,
`src/lock.rs` and `src/lazy.rs` and proves or refutes the frozen claims
about it.  Machine integers (KIRQL, the u32 state word of the lazy
initializers, NTSTATUS codes) are modelled as `Nat`; fallible paths are
explicit (`Except`, result inductives with an `err` / `panicked` case);
the sequential semantics of each operation follows the source line by
line, with instrumentation fields recording which native calls or
initializer-closure invocations an operation performs.
-/

namespace KSync

/-! ### Platform constants (wdk_sys)

IRQL thresholds and NTSTATUS codes used by the source.  PASSIVE_LEVEL,
APC_LEVEL and DISPATCH_LEVEL are the documented x64 values 0, 1, 2. -/

def PASSIVE_LEVEL : Nat := 0

def APC_LEVEL : Nat := 1

def DISPATCH_LEVEL : Nat := 2

def STATUS_UNSUCCESSFUL : Nat := 0xC0000001

def STATUS_INSUFFICIENT_RESOURCES : Nat := 0xC000009A

/-! ### Lock strategies

The `Mutex` trait implementors of `src/mutex.rs`: EmptyMutex (the Null
strategy), FastMutex, GuardedMutex, ResourceMutex, SpinMutex.  The
`QueuedMutex` trait implementors: QueuedEmptyMutex, QueuedSpinMutex. -/

inductive Strategy where
  | empty
  | fast
  | guarded
  | resource
  | spin
deriving DecidableEq, Repr

inductive QStrategy where
  | queuedEmpty
  | queuedSpin
deriving DecidableEq, Repr

/-- `Mutex::shareable`: trait default is `false` (mutex.rs:68-70);
only `ResourceMutex` overrides it to `true` (mutex.rs:265-267). -/
def Mutex.shareable : Strategy → Bool
  | .resource => true
  | _ => false

/-- `Mutex::irql_ok`: trait default is
`KeGetCurrentIrql() <= APC_LEVEL` (mutex.rs:92-94); `SpinMutex`
overrides it to `true` at every IRQL (mutex.rs:376-378). -/
def Mutex.irql_ok : Strategy → Nat → Bool
  | .spin, _ => true
  | _, irql => decide (irql ≤ APC_LEVEL)

/-- `QueuedMutex::irql_ok`: trait default is
`KeGetCurrentIrql() <= DISPATCH_LEVEL` (mutex.rs:106-108);
`QueuedSpinMutex` overrides it to `true` (mutex.rs:434-436). -/
def QueuedMutex.irql_ok : QStrategy → Nat → Bool
  | .queuedSpin, _ => true
  | .queuedEmpty, irql => decide (irql ≤ DISPATCH_LEVEL)

/-! ### SpinMutex state machine

`SpinLockInner` (mutex.rs:309-312) holds the saved KIRQL and the
KSPIN_LOCK word.  `SpinEnv` pairs it with the ambient current IRQL
(the value `KeGetCurrentIrql()` reads). -/

structure SpinLockInner where
  irql : Nat
  lock : Bool
deriving DecidableEq, Repr

structure SpinEnv where
  cur : Nat
  inner : SpinLockInner
deriving DecidableEq, Repr

/-- Platform primitive (spec §6, "raise-to-elevated" acquire):
`KeAcquireSpinLockRaiseToDpc` acquires the lock, raises the current
IRQL to DISPATCH_LEVEL and returns the previous IRQL. -/
def KeAcquireSpinLockRaiseToDpc (e : SpinEnv) : Nat × SpinEnv :=
  (e.cur, { cur := DISPATCH_LEVEL, inner := { e.inner with lock := true } })

/-- Platform primitive (spec §6, "already elevated" acquire):
`KeAcquireSpinLockAtDpcLevel` acquires the lock without changing the
current IRQL. -/
def KeAcquireSpinLockAtDpcLevel (e : SpinEnv) : SpinEnv :=
  { e with inner := { e.inner with lock := true } }

/-- Platform primitive (spec §6, "raise-to-elevated" release):
`KeReleaseSpinLock` releases the lock and sets the current IRQL to the
supplied new IRQL. -/
def KeReleaseSpinLock (newIrql : Nat) (e : SpinEnv) : SpinEnv :=
  { cur := newIrql, inner := { e.inner with lock := false } }

/-- Platform primitive (spec §6, "already elevated" release):
`KeReleaseSpinLockFromDpcLevel` releases the lock without changing the
current IRQL. -/
def KeReleaseSpinLockFromDpcLevel (e : SpinEnv) : SpinEnv :=
  { e with inner := { e.inner with lock := false } }

/-- `SpinMutex::lock` (mutex.rs:347-359): read the current IRQL; at or
above DISPATCH_LEVEL use the at-DPC acquire, otherwise use the raising
acquire and store the returned previous IRQL in `inner.irql`. -/
def SpinMutex.lock (e : SpinEnv) : SpinEnv :=
  let irql := e.cur
  if DISPATCH_LEVEL ≤ irql then
    KeAcquireSpinLockAtDpcLevel e
  else
    let r := KeAcquireSpinLockRaiseToDpc e
    { r.2 with inner := { r.2.inner with irql := r.1 } }

/-- `SpinMutex::unlock` (mutex.rs:361-373): read the current IRQL; at
or above DISPATCH_LEVEL use the from-DPC release (which leaves the IRQL
unchanged), otherwise release restoring `inner.irql`. -/
def SpinMutex.unlock (e : SpinEnv) : SpinEnv :=
  let irql := e.cur
  if DISPATCH_LEVEL ≤ irql then
    KeReleaseSpinLockFromDpcLevel e
  else
    KeReleaseSpinLock e.inner.irql e

/-- Claim C1: the claim states that after a `lock()`/`unlock()` pair
performed below the elevated level, the privilege level equals the
level before `lock()`.  The code refutes this: starting at
PASSIVE_LEVEL, `lock()` does save the previous level (0) in the
per-instance state and raises to DISPATCH_LEVEL, but `unlock()`
re-reads the now-elevated current IRQL, takes the from-DPC release
branch and never restores the saved level, so the IRQL stays at
DISPATCH_LEVEL. -/
theorem spin_unlock_leaves_irql_elevated :
    (SpinMutex.lock ⟨PASSIVE_LEVEL, ⟨0, false⟩⟩).inner.irql = PASSIVE_LEVEL ∧
    (SpinMutex.lock ⟨PASSIVE_LEVEL, ⟨0, false⟩⟩).cur = DISPATCH_LEVEL ∧
    (SpinMutex.unlock (SpinMutex.lock ⟨PASSIVE_LEVEL, ⟨0, false⟩⟩)).cur
      = DISPATCH_LEVEL ∧
    DISPATCH_LEVEL ≠ PASSIVE_LEVEL := by
  decide

/-! ### Container construction

Each strategy `new()` allocates its backend block from the pool and
calls `.expect(..)` on `NonNull::new`, which panics when the allocation
returned null.  `Locked::new` / `StackQueueLocked::new` /
`MutexLock::new` first allocate the container block and return
`Err(STATUS_INSUFFICIENT_RESOURCES)` when that allocation fails.  The
Boolean parameters are the success of the respective pool
allocations. -/

inductive CtorResult where
  | ok
  | err (status : Nat)
  | panicked (msg : String)
deriving DecidableEq, Repr

def CtorResult.isPanicked : CtorResult → Bool
  | .panicked _ => true
  | _ => false

/-- The `Mutex::new` implementors (mutex.rs:154-161, 166-178, 206-220,
248-263, 317-334).  `EmptyMutex::new` performs no allocation; the other
four allocate a backend block and panic through `.expect` when the
allocation fails.  (`ResourceMutex::new` additionally panics if
`ExInitializeResourceLite` fails; that native call is taken as
succeeding here, since the claim concerns allocator failure.) -/
def Mutex.new : Strategy → Bool → CtorResult
  | .empty, _ => .ok
  | .fast, allocOk =>
      if allocOk then .ok
      else .panicked "can not allocate memory for FastMutex"
  | .guarded, allocOk =>
      if allocOk then .ok
      else .panicked "can not allocate memory for Guarded Mutex"
  | .resource, allocOk =>
      if allocOk then .ok
      else .panicked "can not allocate memory for ERESOURCE"
  | .spin, allocOk =>
      if allocOk then .ok
      else .panicked "can not allocated memory for KSPIN_LOCK"

/-- The `QueuedMutex::new` implementors (mutex.rs:390-404, 656-659). -/
def QueuedMutex.new : QStrategy → Bool → CtorResult
  | .queuedEmpty, _ => .ok
  | .queuedSpin, allocOk =>
      if allocOk then .ok
      else .panicked "can not allocated memory for QueuedSpinMutex"

/-- `Locked::new` (mutex.rs:489-519): allocate the container block;
on null return `Err(STATUS_INSUFFICIENT_RESOURCES)`; otherwise
`ptr::write` the `InnerData` whose construction runs `M::new()`
(which may itself panic).  The final `NonNull::new(layout).expect`
cannot fail since `layout` is non-null on this path. -/
def Locked.new (s : Strategy) (containerAllocOk backendAllocOk : Bool) :
    CtorResult :=
  if !containerAllocOk then .err STATUS_INSUFFICIENT_RESOURCES
  else
    match Mutex.new s backendAllocOk with
    | .ok => .ok
    | .err st => .err st
    | .panicked m => .panicked m

/-- `StackQueueLocked::new` (mutex.rs:697-721): same shape as
`Locked::new` with a `QueuedMutex` strategy. -/
def StackQueueLocked.new (q : QStrategy) (containerAllocOk backendAllocOk : Bool) :
    CtorResult :=
  if !containerAllocOk then .err STATUS_INSUFFICIENT_RESOURCES
  else
    match QueuedMutex.new q backendAllocOk with
    | .ok => .ok
    | .err st => .err st
    | .panicked m => .panicked m

/-- `MutexLock::new` (lock.rs:46-59): allocate the strategy block in
place; on null return `Err(STATUS_INSUFFICIENT_RESOURCES)`; otherwise
initialize the strategy in place (`M::init`, no further pool
allocation) and return Ok. -/
def MutexLock.new (containerAllocOk : Bool) : CtorResult :=
  if !containerAllocOk then .err STATUS_INSUFFICIENT_RESOURCES
  else .ok

/-- Counterexample to claim C2: with the container allocation
succeeding and the backend allocation inside `FastMutex::new` failing,
`Locked::new` panics through `.expect` instead of returning an
out-of-resources error. -/
theorem locked_new_panics_on_backend_alloc_failure :
    Locked.new .fast true false
      = .panicked "can not allocate memory for FastMutex" := by
  decide

/-- Claim C2 (amended): when allocation of the container storage fails,
each container constructor returns the explicit
`STATUS_INSUFFICIENT_RESOURCES` error without panicking; but when the
strategy backend allocation inside the strategy `new()` fails (any
strategy other than the allocation-free Null strategies), construction
panics through `.expect` rather than returning an error. -/
theorem container_ctor_alloc_failure_split (s : Strategy) (q : QStrategy)
    (b b2 : Bool) :
    Locked.new s false b = .err STATUS_INSUFFICIENT_RESOURCES ∧
    StackQueueLocked.new q false b2 = .err STATUS_INSUFFICIENT_RESOURCES ∧
    MutexLock.new false = .err STATUS_INSUFFICIENT_RESOURCES ∧
    (s ≠ .empty → (Locked.new s true false).isPanicked = true) ∧
    (q ≠ .queuedEmpty →
      (StackQueueLocked.new q true false).isPanicked = true) := by
  refine ⟨rfl, rfl, rfl, ?_, ?_⟩
  · intro h
    cases s with
    | empty => exact absurd rfl h
    | fast => rfl
    | guarded => rfl
    | resource => rfl
    | spin => rfl
  · intro h
    cases q with
    | queuedEmpty => exact absurd rfl h
    | queuedSpin => rfl

/-- Witness for `container_ctor_alloc_failure_split` at the Fast and
QueuedSpin strategies. -/
theorem container_ctor_alloc_failure_split_witness :
    Locked.new .fast false true = .err STATUS_INSUFFICIENT_RESOURCES ∧
    StackQueueLocked.new .queuedSpin false true
      = .err STATUS_INSUFFICIENT_RESOURCES ∧
    MutexLock.new false = .err STATUS_INSUFFICIENT_RESOURCES ∧
    (Locked.new .fast true false).isPanicked = true ∧
    (StackQueueLocked.new .queuedSpin true false).isPanicked = true := by
  have h := container_ctor_alloc_failure_split .fast .queuedSpin true true
  exact ⟨h.1, h.2.1, h.2.2.1, h.2.2.2.1 (by decide), h.2.2.2.2 (by decide)⟩

/-! ### Acquisition entry points on the containers

`Locked::lock`, `Locked::lock_shared` and `StackQueueLocked::lock`
evaluate the privilege-level gate first and return
`Err(STATUS_UNSUCCESSFUL)` without any native acquire call when it
fails.  Each operation returns its result together with the list of
native acquire calls it performed, in order. -/

inductive NativeCall where
  | acquireExclusive
  | acquireShared
  | queuedAcquire
deriving DecidableEq, Repr

inductive LockResult where
  | guard (exclusive : Bool)
  | err (status : Nat)
  | panicked (msg : String)
deriving DecidableEq, Repr

def LockResult.isGuard : LockResult → Bool
  | .guard _ => true
  | _ => false

def sharedPanicMsg : String :=
  "Can not call lock_shared on a unshareable Mutex"

/-- `Locked::lock` (mutex.rs:529-535): if `M::irql_ok()` fails return
`Err(STATUS_UNSUCCESSFUL)`; otherwise `MutexGuard::new` performs the
native `mutex.lock()` and the exclusive guard is returned. -/
def Locked.lock (s : Strategy) (irql : Nat) : LockResult × List NativeCall :=
  if !(Mutex.irql_ok s irql) then (.err STATUS_UNSUCCESSFUL, [])
  else (.guard true, [.acquireExclusive])

/-- `Locked::lock_shared` (mutex.rs:545-560): if `M::irql_ok()` fails
return `Err(STATUS_UNSUCCESSFUL)`; else if `M::shareable()` is false,
panic under `debug_assertions` and return `Err(STATUS_UNSUCCESSFUL)` in
release builds; else return the shared guard (the source builds
`MutexGuard { locker }` directly on this branch, so no native
acquire-shared call happens here). -/
def Locked.lock_shared (s : Strategy) (debugAssertions : Bool) (irql : Nat) :
    LockResult × List NativeCall :=
  if !(Mutex.irql_ok s irql) then (.err STATUS_UNSUCCESSFUL, [])
  else if !(Mutex.shareable s) then
    if debugAssertions then (.panicked sharedPanicMsg, [])
    else (.err STATUS_UNSUCCESSFUL, [])
  else (.guard false, [])

/-- `StackQueueLocked::lock` (mutex.rs:727-741): if `M::irql_ok()`
fails return `Err(STATUS_UNSUCCESSFUL)`; otherwise perform the native
queued acquire with the caller-supplied handle and return the guard. -/
def StackQueueLocked.lock (q : QStrategy) (irql : Nat) :
    LockResult × List NativeCall :=
  if !(QueuedMutex.irql_ok q irql) then (.err STATUS_UNSUCCESSFUL, [])
  else (.guard true, [.queuedAcquire])

/-- Claim C4: on a strategy with `shareable() == false`, at a legal
privilege level, `lock_shared` panics in debug builds and returns an
explicit error in release builds, and never returns a usable shared
guard. -/
theorem lock_shared_rejects_unshareable (s : Strategy) (irql : Nat)
    (debugAssertions : Bool) (hs : Mutex.shareable s = false)
    (hok : Mutex.irql_ok s irql = true) :
    (Locked.lock_shared s debugAssertions irql).1
      = (if debugAssertions then .panicked sharedPanicMsg
         else .err STATUS_UNSUCCESSFUL) ∧
    (Locked.lock_shared s debugAssertions irql).1.isGuard = false := by
  unfold Locked.lock_shared
  rw [hok, hs]
  cases debugAssertions <;> simp [LockResult.isGuard]

/-- Witness for `lock_shared_rejects_unshareable` at the Fast strategy,
IRQL 0, in both build flavors. -/
theorem lock_shared_rejects_unshareable_witness :
    Mutex.shareable .fast = false ∧
    Mutex.irql_ok .fast 0 = true ∧
    (Locked.lock_shared .fast true 0).1 = .panicked sharedPanicMsg ∧
    (Locked.lock_shared .fast true 0).1.isGuard = false ∧
    (Locked.lock_shared .fast false 0).1 = .err STATUS_UNSUCCESSFUL ∧
    (Locked.lock_shared .fast false 0).1.isGuard = false := by
  have hd := lock_shared_rejects_unshareable .fast 0 true rfl (by decide)
  have hr := lock_shared_rejects_unshareable .fast 0 false rfl (by decide)
  exact ⟨rfl, by decide, by simpa using hd.1, hd.2, by simpa using hr.1, hr.2⟩

/-- Claim C5: at every acquisition entry point, a failed privilege gate
yields an explicit `STATUS_UNSUCCESSFUL` error with an empty list of
native acquire calls, so no partial-acquisition state is possible. -/
theorem gate_failure_errors_without_acquire (s : Strategy) (q : QStrategy)
    (irql : Nat) (debugAssertions : Bool) :
    (Mutex.irql_ok s irql = false →
      Locked.lock s irql = (.err STATUS_UNSUCCESSFUL, []) ∧
      Locked.lock_shared s debugAssertions irql
        = (.err STATUS_UNSUCCESSFUL, [])) ∧
    (QueuedMutex.irql_ok q irql = false →
      StackQueueLocked.lock q irql = (.err STATUS_UNSUCCESSFUL, [])) := by
  constructor
  · intro h
    constructor
    · simp [Locked.lock, h]
    · simp [Locked.lock_shared, h]
  · intro h
    simp [StackQueueLocked.lock, h]

/-- Witness for `gate_failure_errors_without_acquire` at the Fast and
QueuedEmpty strategies with IRQL 3, where both gates fail. -/
theorem gate_failure_errors_without_acquire_witness :
    Mutex.irql_ok .fast 3 = false ∧
    QueuedMutex.irql_ok .queuedEmpty 3 = false ∧
    Locked.lock .fast 3 = (.err STATUS_UNSUCCESSFUL, []) ∧
    Locked.lock_shared .fast true 3 = (.err STATUS_UNSUCCESSFUL, []) ∧
    StackQueueLocked.lock .queuedEmpty 3 = (.err STATUS_UNSUCCESSFUL, []) := by
  have h := gate_failure_errors_without_acquire .fast .queuedEmpty 3 true
  exact ⟨by decide, by decide, (h.1 (by decide)).1, (h.1 (by decide)).2,
    h.2 (by decide)⟩

/-- Claim C6: the Spin and QueuedSpin gates accept every IRQL; the
Fast, Guarded, Resource and Null gates accept exactly the IRQLs at or
below APC_LEVEL. -/
theorem irql_gate_per_strategy (irql : Nat) :
    Mutex.irql_ok .spin irql = true ∧
    QueuedMutex.irql_ok .queuedSpin irql = true ∧
    (Mutex.irql_ok .fast irql = true ↔ irql ≤ APC_LEVEL) ∧
    (Mutex.irql_ok .guarded irql = true ↔ irql ≤ APC_LEVEL) ∧
    (Mutex.irql_ok .resource irql = true ↔ irql ≤ APC_LEVEL) ∧
    (Mutex.irql_ok .empty irql = true ↔ irql ≤ APC_LEVEL) := by
  refine ⟨rfl, rfl, ?_, ?_, ?_, ?_⟩ <;> simp [Mutex.irql_ok]

/-! ### Atomic memory orderings used by the lazy initializers

The ordering annotations are embedded as data read off the source, so
the release/acquire pairing claim can be checked statically. -/

inductive MemOrdering where
  | relaxed
  | acquire
  | release
  | acqRel
  | seqCst
deriving DecidableEq, Repr

/-- An ordering at least as strong as acquire on the load side. -/
def MemOrdering.includesAcquire : MemOrdering → Bool
  | .acquire | .acqRel | .seqCst => true
  | _ => false

/-- An ordering at least as strong as release on the store side. -/
def MemOrdering.includesRelease : MemOrdering → Bool
  | .release | .acqRel | .seqCst => true
  | _ => false

/-- Ordering of the state load in `LazyLock::get_state` (lazy.rs:115):
`self.state.load(atomic::Ordering::Relaxed)`. -/
def LazyLock.get_state_load_ordering : MemOrdering := .relaxed

/-- Ordering of the state load in the `LazyLock::wait` busy loop
(lazy.rs:190): `self.state.load(atomic::Ordering::Relaxed)`. -/
def LazyLock.wait_load_ordering : MemOrdering := .relaxed

/-- Success ordering of the INITIALIZING to INITIALIZED
compare-exchange in `LazyLock::really_init` (lazy.rs:165-170):
`SeqCst`. -/
def LazyLock.publish_cas_success_ordering : MemOrdering := .seqCst

/-- Ordering of the state load in `OnceLock::is_initialized`
(lazy.rs:527), used by `get`, `wait` and every reader:
`Ordering::Relaxed`. -/
def OnceLock.state_load_ordering : MemOrdering := .relaxed

/-- Success ordering of the INITIALIZING to INITIALIZED
compare-exchange in `OnceLock::init_once` (lazy.rs:604-609):
`SeqCst`. -/
def OnceLock.publish_cas_success_ordering : MemOrdering := .seqCst

/-- Claim C3: the claim states that the Initializing-to-Initialized
transition is a release store paired with acquire reads of the state.
The code refutes the read side: the publishing compare-exchange is
SeqCst (which includes release), but every state load — the LazyLock
fast-path read, the LazyLock wait loop and the OnceLock
`is_initialized` probe — is Relaxed, not acquire, so the required
happens-before pairing is absent. -/
theorem initializer_state_loads_are_relaxed :
    LazyLock.publish_cas_success_ordering.includesRelease = true ∧
    OnceLock.publish_cas_success_ordering.includesRelease = true ∧
    LazyLock.get_state_load_ordering.includesAcquire = false ∧
    LazyLock.wait_load_ordering.includesAcquire = false ∧
    OnceLock.state_load_ordering.includesAcquire = false := by
  decide

/-! ### OnceLock (sequential semantics)

`OnceLock<T>` (lazy.rs:512-664) holds an `AtomicU32` state word among
UNINIT / INITIALIZING / INITIALIZED and a `MaybeUninit<T>` payload,
modelled as `Option T` (`none` = uninitialized storage).  Operations
are run by a single execution context; a busy-wait that can never
observe INITIALIZED is modelled by a `none` result.  `InitTrace`
records how many times the initializer closure ran and whether the
busy-wait loop was entered. -/

def UNINIT : Nat := 0

def INITIALIZING : Nat := 1

def INITIALIZED : Nat := 2

structure InitTrace where
  fcalls : Nat
  waited : Bool
deriving DecidableEq, Repr

structure OnceLockState (T : Type) where
  state : Nat
  value : Option T
deriving DecidableEq, Repr

/-- `OnceLock::new` (lazy.rs:518-523). -/
def OnceLock.new {T : Type} : OnceLockState T :=
  { state := UNINIT, value := none }

/-- `OnceLock::is_initialized` (lazy.rs:526-528). -/
def OnceLock.is_initialized {T : Type} (s : OnceLockState T) : Bool :=
  s.state == INITIALIZED

/-- `OnceLock::get` (lazy.rs:531-537): `Some` of the payload when the
state word is INITIALIZED, else `None`. -/
def OnceLock.get {T : Type} (s : OnceLockState T) : Option T :=
  if OnceLock.is_initialized s then s.value else none

/-- `OnceLock::init_once` (lazy.rs:592-615): compare-exchange the
state from UNINIT to INITIALIZING; the winner runs `f`, stores the
value, compare-exchanges INITIALIZING to INITIALIZED and returns the
value; a loser falls into `wait()`, which in a single-context run
returns immediately when the state is already INITIALIZED and spins
forever otherwise (result `none`). -/
def OnceLock.init_once {T : Type} (f : Unit → T) (s : OnceLockState T) :
    Option T × OnceLockState T × InitTrace :=
  if s.state = UNINIT then
    let v := f ()
    (some v, { state := INITIALIZED, value := some v },
      { fcalls := 1, waited := false })
  else if s.state = INITIALIZED then
    (s.value, s, { fcalls := 0, waited := true })
  else
    (none, s, { fcalls := 0, waited := true })

/-- `OnceLock::set` (lazy.rs:553-561): if `get()` returns `Some`,
fail returning the value to the caller; otherwise run `init_once` with
the closure returning the value. -/
def OnceLock.set {T : Type} (v : T) (s : OnceLockState T) :
    Except T Unit × OnceLockState T :=
  match OnceLock.get s with
  | some _ => (.error v, s)
  | none =>
    let r := OnceLock.init_once (fun _ => v) s
    (.ok (), r.2.1)

/-- `OnceLock::get_or_init` (lazy.rs:567-573): return the payload if
already initialized, else run `init_once f`. -/
def OnceLock.get_or_init {T : Type} (f : Unit → T) (s : OnceLockState T) :
    Option T × OnceLockState T × InitTrace :=
  match OnceLock.get s with
  | some v => (some v, s, { fcalls := 0, waited := false })
  | none => OnceLock.init_once f s

/-- Claim C7: from the Uninitialized state, `set(v)` succeeds and a
subsequent `get()` returns `Some v`; a second `set(v2)` fails returning
`v2` to the caller and leaves both the state and the stored value
unchanged. -/
theorem onceLock_set_get_roundtrip (T : Type) (v v2 : T) :
    (OnceLock.set v (OnceLock.new : OnceLockState T)).1 = .ok () ∧
    OnceLock.get (OnceLock.set v (OnceLock.new : OnceLockState T)).2
      = some v ∧
    (OnceLock.set v2
      (OnceLock.set v (OnceLock.new : OnceLockState T)).2).1 = .error v2 ∧
    (OnceLock.set v2 (OnceLock.set v (OnceLock.new : OnceLockState T)).2).2
      = (OnceLock.set v (OnceLock.new : OnceLockState T)).2 ∧
    OnceLock.get
      (OnceLock.set v2
        (OnceLock.set v (OnceLock.new : OnceLockState T)).2).2 = some v := by
  exact ⟨rfl, rfl, rfl, rfl, rfl⟩

/-! ### LazyLock (sequential semantics)

`LazyLock<T, F>` (lazy.rs:97-232) holds the state word and a union of
the pending initializer closure and the computed value; the union is
modelled as a tagged sum whose tag the u32 state word mirrors.
`app : F → T` models calling the closure.  A union field read that
does not match the live field is `undefBehavior`. -/

inductive LLData (T F : Type) where
  | pending (f : F)
  | ready (v : T)
deriving DecidableEq, Repr

structure LazyLockState (T F : Type) where
  state : Nat
  data : LLData T F
deriving DecidableEq, Repr

inductive ForceResult (T : Type) where
  | ok (v : T)
  | diverge
  | panicked (msg : String)
  | undefBehavior
deriving DecidableEq, Repr

/-- `LazyLock::get_state` (lazy.rs:113-116): relaxed load of the state
word. -/
def LazyLock.get_state {T F : Type} (s : LazyLockState T F) : Nat :=
  s.state

/-- `LazyLock::really_init` (lazy.rs:149-177): compare-exchange UNINIT
to INITIALIZING; the winner takes the closure out of the union, runs
it, writes the value, compare-exchanges INITIALIZING to INITIALIZED
and returns the value; a loser falls into `force_wait`, which in a
single-context run returns the value when the state is already
INITIALIZED and spins forever otherwise. -/
def LazyLock.really_init {T F : Type} (app : F → T)
    (s : LazyLockState T F) :
    ForceResult T × LazyLockState T F × InitTrace :=
  if s.state = UNINIT then
    match s.data with
    | .pending f =>
      let v := app f
      (.ok v, { state := INITIALIZED, data := .ready v },
        { fcalls := 1, waited := false })
    | .ready _ => (.undefBehavior, s, { fcalls := 0, waited := false })
  else if s.state = INITIALIZED then
    match s.data with
    | .ready v => (.ok v, s, { fcalls := 0, waited := true })
    | .pending _ => (.undefBehavior, s, { fcalls := 0, waited := true })
  else
    (.diverge, s, { fcalls := 0, waited := true })

/-- `LazyLock::force` (lazy.rs:138-147): dispatch on the state word —
UNINIT runs `really_init`; INITIALIZING enters `force_wait` (which
cannot terminate in a single-context run); INITIALIZED returns the
value from the union immediately; any other state word panics. -/
def LazyLock.force {T F : Type} (app : F → T) (s : LazyLockState T F) :
    ForceResult T × LazyLockState T F × InitTrace :=
  let st := LazyLock.get_state s
  if st = UNINIT then LazyLock.really_init app s
  else if st = INITIALIZING then
    (.diverge, s, { fcalls := 0, waited := true })
  else if st = INITIALIZED then
    match s.data with
    | .ready v => (.ok v, s, { fcalls := 0, waited := false })
    | .pending _ => (.undefBehavior, s, { fcalls := 0, waited := false })
  else
    (.panicked "invalid state value", s, { fcalls := 0, waited := false })

/-- Claim C8: once the state is INITIALIZED, `LazyLock::force` returns
the stored value with the state unchanged, without invoking the
initializer closure and without entering the busy-wait loop, and
`OnceLock::get_or_init` likewise returns the stored value with no
initializer call and no wait. -/
theorem force_after_initialized_fast_path (T F : Type) (app : F → T)
    (f : Unit → T) (s : LazyLockState T F) (v : T) (os : OnceLockState T)
    (w : T) (hs : s.state = INITIALIZED) (hd : s.data = .ready v)
    (ho : os.state = INITIALIZED) (hv : os.value = some w) :
    LazyLock.force app s = (.ok v, s, { fcalls := 0, waited := false }) ∧
    OnceLock.get_or_init f os
      = (some w, os, { fcalls := 0, waited := false }) := by
  constructor
  · unfold LazyLock.force LazyLock.get_state
    rw [hs, hd]
    simp [INITIALIZED, UNINIT, INITIALIZING]
  · unfold OnceLock.get_or_init OnceLock.get OnceLock.is_initialized
    rw [ho, hv]
    simp [INITIALIZED]

/-- Witness for `force_after_initialized_fast_path` on concrete
initialized cells over `Nat`. -/
theorem force_after_initialized_fast_path_witness :
    (⟨INITIALIZED, .ready 7⟩ : LazyLockState Nat Nat).state = INITIALIZED ∧
    (⟨INITIALIZED, .ready 7⟩ : LazyLockState Nat Nat).data = .ready 7 ∧
    (⟨INITIALIZED, some 5⟩ : OnceLockState Nat).state = INITIALIZED ∧
    (⟨INITIALIZED, some 5⟩ : OnceLockState Nat).value = some 5 ∧
    LazyLock.force (fun n => n + 1)
        (⟨INITIALIZED, .ready 7⟩ : LazyLockState Nat Nat)
      = (.ok 7, ⟨INITIALIZED, .ready 7⟩, { fcalls := 0, waited := false }) ∧
    OnceLock.get_or_init (fun _ => 9)
        (⟨INITIALIZED, some 5⟩ : OnceLockState Nat)
      = (some 5, ⟨INITIALIZED, some 5⟩,
          { fcalls := 0, waited := false }) := by
  have h := force_after_initialized_fast_path Nat Nat (fun n => n + 1)
    (fun _ => 9) ⟨INITIALIZED, .ready 7⟩ 7 ⟨INITIALIZED, some 5⟩ 5
    rfl rfl rfl rfl
  exact ⟨rfl, rfl, rfl, rfl, h.1, h.2⟩

/-! ### LazyCell (single-writer initializer)

`LazyCell<T, F>` (lazy.rs:270-437) holds `State<T, F>` — Uninit with
the pending closure, Init with the value, or Poisoned — behind an
`UnsafeCell`.  `app : F → T` models calling the closure; a panic is
the `.error` case of `Except String`. -/

inductive LCState (T F : Type) where
  | uninit (f : F)
  | init (v : T)
  | poisoned
deriving DecidableEq, Repr

def poisonMsg : String :=
  "LazyStatic is in poisoned state, maybe it has been used incorrectly"

/-- `LazyCell::drop` (lazy.rs:363-373): on Uninit or Init, drop the
live variant in place and write Poisoned; on Poisoned, panic (the
source `_ => panic!()` arm, whose default message is "explicit
panic"). -/
def LazyCell.drop {T F : Type} (s : LCState T F) :
    Except String (LCState T F) :=
  match s with
  | .uninit _ => .ok .poisoned
  | .init _ => .ok .poisoned
  | .poisoned => .error "explicit panic"

/-- `LazyCell::force` (lazy.rs:351-361): on Init return the value; on
Uninit run `really_init` (lazy.rs:388-406), which takes the closure
out (writing Poisoned in the interim), runs it and writes Init with
the result; on Poisoned, panic with the poisoned-state message. -/
def LazyCell.force {T F : Type} (app : F → T) (s : LCState T F) :
    Except String (T × LCState T F) :=
  match s with
  | .init v => .ok (v, .init v)
  | .uninit f =>
    let v := app f
    .ok (v, .init v)
  | .poisoned => .error poisonMsg

/-- Claim C9: `LazyCell::drop` from the Uninitialized or Initialized
state destroys the live variant and leaves the state Poisoned; after
that, `force` panics with the poisoned-state message and a second
`drop` panics — explicit fatal errors, never a silently returned
value. -/
theorem lazyCell_drop_poisons_then_access_fatal (T F : Type) (app : F → T)
    (s : LCState T F) (h : s ≠ .poisoned) :
    LazyCell.drop s = .ok .poisoned ∧
    LazyCell.force app (.poisoned : LCState T F) = .error poisonMsg ∧
    LazyCell.drop (.poisoned : LCState T F) = .error "explicit panic" := by
  refine ⟨?_, rfl, rfl⟩
  cases s with
  | uninit f => rfl
  | init v => rfl
  | poisoned => exact absurd rfl h

/-- Witness for `lazyCell_drop_poisons_then_access_fatal` on a
concrete initialized cell over `Nat`. -/
theorem lazyCell_drop_poisons_then_access_fatal_witness :
    ((.init 3 : LCState Nat Nat) ≠ .poisoned) ∧
    LazyCell.drop (.init 3 : LCState Nat Nat) = .ok .poisoned ∧
    LazyCell.force (fun n => n + 1) (.poisoned : LCState Nat Nat)
      = .error poisonMsg ∧
    LazyCell.drop (.poisoned : LCState Nat Nat)
      = .error "explicit panic" := by
  have h := lazyCell_drop_poisons_then_access_fatal Nat Nat (fun n => n + 1)
    (.init 3) (by decide)
  exact ⟨by decide, h.1, h.2.1, h.2.2⟩

/-! ### OnceCell (single-writer write-once cell)

`OnceCell<T>` (lazy.rs:442-505) is an `UnsafeCell<Option<T>>`,
modelled directly as `Option T`. -/

/-- `OnceCell::get` (lazy.rs:454-456). -/
def OnceCell.get {T : Type} (s : Option T) : Option T :=
  s

/-- `OnceCell::set` (lazy.rs:464-473): fail returning the value when
already occupied, else store it. -/
def OnceCell.set {T : Type} (v : T) (s : Option T) :
    Except T Unit × Option T :=
  match OnceCell.get s with
  | some _ => (.error v, s)
  | none => (.ok (), some v)

/-- `OnceCell::get_or_init` (lazy.rs:476-489): when empty, run `f`,
store the result via `set` and return `self.get()`; when `set` fails
or the cell was already occupied, return `None`. -/
def OnceCell.get_or_init {T : Type} (f : Unit → T) (s : Option T) :
    Option T × Option T :=
  match OnceCell.get s with
  | none =>
    let v := f ()
    match OnceCell.set v s with
    | (.ok _, s2) => (OnceCell.get s2, s2)
    | (.error _, s2) => (none, s2)
  | some _ => (none, s)

/-- Claim C10: `OnceCell::get_or_init` on an already-initialized cell
returns `None` (leaving the cell unchanged), and returns `Some` of the
stored value only on the call that performs the initialization. -/
theorem onceCell_get_or_init_none_when_initialized (T : Type)
    (f : Unit → T) (v : T) :
    OnceCell.get_or_init f (some v) = (none, some v) ∧
    OnceCell.get_or_init f (none : Option T)
      = (some (f ()), some (f ())) := by
  exact ⟨rfl, rfl⟩

end KSync
